import Mathlib

/-!
Verification development for the jiang-irac-nonuse-evidence pipeline
(auto_recognize_and_generate.py and generate_suite_v2.py).

Shallow embedding conventions:
* Python `str` values that undergo character-level processing are modelled as
  `List Char`; values only compared or stored are modelled as `String`.
* Python `datetime.date` is modelled as `Int` (a proleptic ordinal day);
  comparison and day subtraction on dates correspond to `≤`/`-` on `Int`.
* Regex matching in the source is re-implemented as explicit scanners for the
  specific patterns the source uses.
* External collaborators (OCR text, pandas cell parsing, regex date
  extraction inside other modules) enter as explicit arguments holding the
  values they would produce.
-/

/-- Model of Python `\s` whitespace for the characters this corpus produces
(ASCII whitespace plus the full-width space U+3000 and NBSP). -/
def isPyWs (c : Char) : Bool :=
  c = ' ' || c = '\t' || c = '\n' || c = '\r' || c = '\x0b' || c = '\x0c' ||
  c = '　' || c = ' '

/-- ASCII digit test, as used by the source's `[0-9]` character classes. -/
def isDig (c : Char) : Bool :=
  '0' ≤ c && c ≤ '9'

/-- The `str.maketrans` table of `normalize_ocr_digits`
(auto_recognize_and_generate.py): visually confusable glyphs to digits. -/
def ocrDigitTrans (c : Char) : Char :=
  if c = 'O' || c = 'o' then '0'
  else if c = 'I' || c = 'l' || c = '|' then '1'
  else if c = 'S' || c = 's' then '5'
  else if c = 'B' then '8'
  else c

/-- `normalize_ocr_digits` from auto_recognize_and_generate.py:
`s.translate(trans)` over the glyph-confusion table. -/
def normalize_ocr_digits (s : List Char) : List Char :=
  s.map ocrDigitTrans

/-- Python `str.replace(pat, rep)` semantics for a two-character pattern
`[a, b]` replaced by the single character `r`: left-to-right, non-overlapping,
scanning continues after each replacement. -/
def replace2 (a b r : Char) : List Char → List Char
  | [] => []
  | [c1] => [c1]
  | c1 :: c2 :: rest2 =>
    if c1 = a && c2 = b then r :: replace2 a b r rest2
    else c1 :: replace2 a b r (c2 :: rest2)

/-- Split a character list at the first occurrence of the terminal character,
returning (prefix before it, suffix after it). -/
def splitAtFirst (t : Char) : List Char → Option (List Char × List Char)
  | [] => none
  | c :: rest =>
    if c = t then some ([], rest)
    else (splitAtFirst t rest).map (fun p => (c :: p.1, p.2))

/-- Split at the first occurrence of either of two terminal characters,
also reporting which terminal was found. -/
def splitAtFirst2 (t1 t2 : Char) : List Char → Option (List Char × Char × List Char)
  | [] => none
  | c :: rest =>
    if c = t1 || c = t2 then some ([], c, rest)
    else (splitAtFirst2 t1 t2 rest).map (fun p => (c :: p.1, p.2.1, p.2.2))

/-- Strip leading and trailing model-whitespace from a character list. -/
def stripWsEnds (l : List Char) : List Char :=
  ((l.dropWhile isPyWs).reverse.dropWhile isPyWs).reverse

/-- `safe_str` from generate_suite_v2.py applied to a string cell: missing
cells are modelled as `""`, so only the `str.strip()` remains (implemented
over the character list so that proofs can evaluate it). -/
def st (s : String) : String :=
  String.mk (stripWsEnds s.data)

/-- `safe_str(...).upper()` (the values compared are ASCII, where Python and
Lean uppercasing agree). -/
def su (s : String) : String :=
  String.mk ((stripWsEnds s.data).map Char.toUpper)

/-- Whether a gap of characters can be consumed by `\s* C{0,maxk} \s*` where
`C` is the complement of `excl` (note `C` admits whitespace, since the
source's negated classes do not exclude it): equivalently, after stripping
whitespace at both ends the remaining core has length ≤ maxk and contains no
excluded character. -/
def gapOk (maxk : Nat) (excl : Char → Bool) (gap : List Char) : Bool :=
  let core := stripWsEnds gap
  core.length ≤ maxk && core.all (fun c => !excl c)

/-- Characters excluded by the class `[^0-9年月. slash dash]` of the year-repair
substitution. -/
def exclYear (c : Char) : Bool :=
  isDig c || c = '年' || c = '月' || c = '.' || c = '/' || c = '-'

/-- Characters excluded by the class `[^0-9月. slash dash]` of the month-repair
substitution. -/
def exclMonth (c : Char) : Bool :=
  isDig c || c = '月' || c = '.' || c = '/' || c = '-'

/-- Characters excluded by the class `[^0-9日号. slash dash]` of the day-repair
substitution. -/
def exclDay (c : Char) : Bool :=
  isDig c || c = '日' || c = '号' || c = '.' || c = '/' || c = '-'

/-- Matcher for `(20\d{2})\s*[^0-9年月. slash dash]{0,3}\s*年` at the head of the list.
A match ends at the first `年` after the four digits, and exists iff the gap
up to it decomposes as whitespace around at most three class characters.
Returns (replacement `\1年`, remainder). -/
def matchSub4 : List Char → Option (List Char × List Char)
  | '2' :: '0' :: c3 :: c4 :: rest =>
    if isDig c3 && isDig c4 then
      match splitAtFirst '年' rest with
      | some (gap, after) =>
        if gapOk 3 exclYear gap then some (['2', '0', c3, c4, '年'], after) else none
      | none => none
    else none
  | _ => none

/-- Try a month/day gap match after a matched digit group. -/
def tryGapTerm (digits : List Char) (maxk : Nat) (excl : Char → Bool)
    (term : Char) (repTerm : Char) (l : List Char) : Option (List Char × List Char) :=
  match splitAtFirst term l with
  | some (gap, after) =>
    if gapOk maxk excl gap then some (digits ++ [repTerm], after) else none
  | none => none

/-- Matcher for `([0-9]{1,2})\s*[^0-9月. slash dash]{0,2}\s*月` at the head of the
list, with the greedy-then-backtrack choice of one or two leading digits. -/
def matchSub5 : List Char → Option (List Char × List Char)
  | c1 :: rest =>
    if isDig c1 then
      match rest with
      | c2 :: rest2 =>
        if isDig c2 then
          match tryGapTerm [c1, c2] 2 exclMonth '月' '月' rest2 with
          | some r => some r
          | none => tryGapTerm [c1] 2 exclMonth '月' '月' rest
        else tryGapTerm [c1] 2 exclMonth '月' '月' rest
      | [] => none
    else none
  | [] => none

/-- Matcher for `([0-9]{1,2})\s*[^0-9日号. slash dash]{0,2}\s*(日|号)` (the replacement
always writes `日`). -/
def matchSub6Gap (digits : List Char) (l : List Char) : Option (List Char × List Char) :=
  match splitAtFirst2 '日' '号' l with
  | some (gap, _, after) =>
    if gapOk 2 exclDay gap then some (digits ++ ['日'], after) else none
  | none => none

/-- Head matcher for the day-repair substitution. -/
def matchSub6 : List Char → Option (List Char × List Char)
  | c1 :: rest =>
    if isDig c1 then
      match rest with
      | c2 :: rest2 =>
        if isDig c2 then
          match matchSub6Gap [c1, c2] rest2 with
          | some r => some r
          | none => matchSub6Gap [c1] rest
        else matchSub6Gap [c1] rest
      | [] => none
    else none
  | [] => none

/-- `re.sub` driver: scan left to right, replace each leftmost match and
continue after it (fuel-indexed; fuel `l.length + 1` always suffices because
every step consumes at least one input character). -/
def runSubAux (matcher : List Char → Option (List Char × List Char)) :
    Nat → List Char → List Char
  | 0, l => l
  | _ + 1, [] => []
  | fuel + 1, c :: rest =>
    match matcher (c :: rest) with
    | some (rep, after) => rep ++ runSubAux matcher fuel after
    | none => c :: runSubAux matcher fuel rest

/-- Run a substitution over a whole character list. -/
def runSub (matcher : List Char → Option (List Char × List Char)) (l : List Char) :
    List Char :=
  runSubAux matcher (l.length + 1) l

/-- `re.sub(r"\s+", " ", ...)`: every maximal whitespace run becomes one
space (prevWs tracks whether the previous character was inside a run). -/
def collapseWsAux : Bool → List Char → List Char
  | _, [] => []
  | prevWs, c :: rest =>
    if isPyWs c then
      if prevWs then collapseWsAux true rest
      else ' ' :: collapseWsAux true rest
    else c :: collapseWsAux false rest

/-- Whitespace collapsing, entry point. -/
def collapseWs (l : List Char) : List Char :=
  collapseWsAux false l

/-- `normalize_ocr_date_text` from auto_recognize_and_generate.py: digit
normalization, the five two-character artifact replaces, the three
date-separator repair substitutions, then whitespace collapsing. -/
def normalize_ocr_date_text (s : List Char) : List Char :=
  let s1 := normalize_ocr_digits s
  let s2 := replace2 '人' '年' '年' s1
  let s3 := replace2 '入' '年' '年' s2
  let s4 := replace2 '年' '年' '年' s3
  let s5 := replace2 '月' '月' '月' s4
  let s6 := replace2 '日' '日' '日' s5
  let s7 := runSub matchSub4 s6
  let s8 := runSub matchSub5 s7
  let s9 := runSub matchSub6 s8
  collapseWs s9

theorem ocrDigitTrans_idem (c : Char) : ocrDigitTrans (ocrDigitTrans c) = ocrDigitTrans c := by
  unfold ocrDigitTrans
  split_ifs with h1 h2 h3 h4 <;> simp_all

/-- The `strong_scene_hit` test of `confidence_from_dates`: some date came
through the review / order / logistics scene channel. -/
def sceneHit (time_channels : List String) : Bool :=
  time_channels.any (fun ch => ch = "评价" || ch = "交易" || ch = "物流")

/-- `confidence_from_dates` from auto_recognize_and_generate.py, translated
branch by branch.  `dates` is the resolved date list, `mark_time_lines` the
matched mark-time source lines, `review_dates` the review-channel dates,
`meta_used` the container-metadata fallback flag and `time_channels` the
names of the scene channels that produced dates. -/
def confidence_from_dates (dates : List Int) (mark_time_lines : List String)
    (review_dates : List Int) (meta_used : Bool) (time_channels : List String) :
    String :=
  if 1 ≤ dates.length && sceneHit time_channels && !meta_used then "HIGH"
  else if 2 ≤ dates.length && (!mark_time_lines.isEmpty || !review_dates.isEmpty) then "HIGH"
  else if 2 ≤ dates.length then "HIGH"
  else if dates.length = 1 && !review_dates.isEmpty then "MEDIUM"
  else if dates.length = 1 && meta_used then "LOW"
  else if dates.length = 1 then "MEDIUM"
  else "LOW"

/-- The confidence policy exactly as claim C2 words it: HIGH on ≥2 distinct
dates or one scene-backed date without metadata fallback; MEDIUM on one
scene-backed date or one metadata-derived date; LOW otherwise. -/
def claimC2_confidence (dates : List Int) (meta_used : Bool)
    (time_channels : List String) : String :=
  if 2 ≤ dates.length || (dates.length = 1 && sceneHit time_channels && !meta_used)
  then "HIGH"
  else if dates.length = 1 && (sceneHit time_channels || meta_used) then "MEDIUM"
  else "LOW"

/-- The confidence policy the code actually implements, stated as the
amended claim: HIGH on ≥2 dates or ≥1 scene-backed date without metadata
fallback; MEDIUM on exactly one date that has review-channel backing or is
not metadata-derived; LOW otherwise. -/
def claimC2_amended_confidence (dates : List Int) (review_dates : List Int)
    (meta_used : Bool) (time_channels : List String) : String :=
  if 2 ≤ dates.length || (dates.length = 1 && sceneHit time_channels && !meta_used)
  then "HIGH"
  else if dates.length = 1 && (!review_dates.isEmpty || !meta_used) then "MEDIUM"
  else "LOW"


/-- The merged case-field record manipulated by `run_fixed_five_round_scans`
(auto_recognize_and_generate.py): the five required keys checked by
`_missing_case_keys`. -/
structure CaseInfo where
  reg_no : String
  class_field : String
  mark_name : String
  respondent : String
  applicant : String

/-- `_missing_case_keys` from `run_fixed_five_round_scans`: the required keys
whose (stripped) value is still empty. -/
def missing_case_keys (ci : CaseInfo) : List String :=
  (if st ci.reg_no = "" then ["reg_no"] else []) ++
  (if st ci.class_field = "" then ["class"] else []) ++
  (if st ci.mark_name = "" then ["mark_name"] else []) ++
  (if st ci.respondent = "" then ["respondent"] else []) ++
  (if st ci.applicant = "" then ["applicant"] else [])

/-- `_low_signal_count`: how many documents have a signal score below the
threshold.  The per-document scores (produced by `_scan_text_signal_score`
over the accumulated OCR text, an external input here) are given as a list
aligned with the file list. -/
def low_signal_count (scores : List Int) (threshold : Int) : Nat :=
  (scores.filter (fun s => s < threshold)).length

/-- The comparison `low_count / max(1, nfiles) >= num/den` of the trigger
gates, in exact rational form (the source computes it in floating point with
the literals 0.55, 0.45, 0.40, 0.30, 0.22; all of the ratios reachable here
compare identically in exact arithmetic). -/
def ratioGe (count nfiles num den : Nat) : Bool :=
  den * count ≥ num * max 1 nfiles

/-- Trigger gate for scan round 3, computed at the end of round 2:
`bool(missing_after_r2) or (low_ratio_r2 >= (0.55 if fast_mode else 0.45))`
with signal threshold 2. -/
def trigger_r3 (fast_mode : Bool) (case2 : CaseInfo) (scores2 : List Int)
    (nfiles : Nat) : Bool :=
  !(missing_case_keys case2).isEmpty ||
    (if fast_mode then ratioGe (low_signal_count scores2 2) nfiles 55 100
     else ratioGe (low_signal_count scores2 2) nfiles 45 100)

/-- Trigger gate for scan round 4:
`trigger_r3 and (bool(missing_after_r3) or (low_ratio_r3 >= (0.40 if
fast_mode else 0.30)))` with signal threshold 3. -/
def trigger_r4 (fast_mode : Bool) (case2 : CaseInfo) (scores2 : List Int)
    (case3 : CaseInfo) (scores3 : List Int) (nfiles : Nat) : Bool :=
  trigger_r3 fast_mode case2 scores2 nfiles &&
    (!(missing_case_keys case3).isEmpty ||
      (if fast_mode then ratioGe (low_signal_count scores3 3) nfiles 40 100
       else ratioGe (low_signal_count scores3 3) nfiles 30 100))

/-- Trigger gate for scan round 5:
`trigger_r4 and (bool(missing_after_r4) or (low_ratio_r4 >= (0.30 if
fast_mode else 0.22)))` with signal threshold 4. -/
def trigger_r5 (fast_mode : Bool) (case2 : CaseInfo) (scores2 : List Int)
    (case3 : CaseInfo) (scores3 : List Int) (case4 : CaseInfo)
    (scores4 : List Int) (nfiles : Nat) : Bool :=
  trigger_r4 fast_mode case2 scores2 case3 scores3 nfiles &&
    (!(missing_case_keys case4).isEmpty ||
      (if fast_mode then ratioGe (low_signal_count scores4 4) nfiles 30 100
       else ratioGe (low_signal_count scores4 4) nfiles 22 100))

/-- The per-round trigger condition exactly as claim C3 words it: some
required case field is still missing, or the fraction of documents with a
signal score below the round's threshold reaches the mode-dependent ratio
(stated over `ℚ`). -/
def claimC3_condition (caseN : CaseInfo) (scoresN : List Int) (nfiles : Nat)
    (threshold : Int) (ratio : ℚ) : Prop :=
  missing_case_keys caseN ≠ [] ∨
    ((low_signal_count scoresN threshold : ℚ) / ((max 1 nfiles : Nat) : ℚ) ≥ ratio)

instance (caseN : CaseInfo) (scoresN : List Int) (nfiles : Nat)
    (threshold : Int) (ratio : ℚ) :
    Decidable (claimC3_condition caseN scoresN nfiles threshold ratio) := by
  unfold claimC3_condition
  infer_instance

/-- `normalize_text` from auto_recognize_and_generate.py:
`re.sub(r"\s+", "", s).replace("|", "").replace("丨", "")`. -/
def normalize_text (s : List Char) : List Char :=
  (s.filter (fun c => !isPyWs c)).filter (fun c => !(c = '|' || c = '丨'))

/-- CJK-unified-ideograph test for the class `[一-龥]`. -/
def isCJK (c : Char) : Bool :=
  0x4e00 ≤ c.toNat && c.toNat ≤ 0x9fa5

/-- ASCII letter-or-digit test for the class `[A-Za-z0-9]`. -/
def isAsciiAlnum (c : Char) : Bool :=
  ('A' ≤ c && c ≤ 'Z') || ('a' ≤ c && c ≤ 'z') || isDig c

/-- `normalize_for_dedup` from auto_recognize_and_generate.py: normalize,
then drop every character outside `[一-龥A-Za-z0-9]`. -/
def normalize_for_dedup (s : List Char) : List Char :=
  (normalize_text s).filter (fun c => isCJK c || isAsciiAlnum c)

/-- Rendering of a model date for fingerprint strings (stands for
`date.isoformat()`; injective, which is all the development relies on). -/
def dateFingerprint (d : Int) : List Char :=
  (toString d).data

/-- Decimal rendering of a natural number as characters. -/
def natChars (n : Nat) : List Char :=
  (toString n).data

/-- The pre-hash signature material built by `dedup_signature`
(auto_recognize_and_generate.py).  `stem` and `page_count` model
`pdf.stem` and `pdf_page_count(pdf)`; `extracted_dates` models
`extract_dates_advanced(text or "", None, None)` (regex date extraction over
the raw text).  The source feeds this string to SHA-1; the hash input is
what is modelled. -/
def dedup_signature_raw (stem : List Char) (page_count : Nat)
    (text : List Char) (extracted_dates : List Int) : List Char :=
  let norm := normalize_for_dedup text
  let time_fp :=
    List.intercalate ['|'] ((extracted_dates.take 3).map dateFingerprint)
  if norm.length < 80 then
    stem ++ ['|'] ++ natChars page_count ++ ['|'] ++ natChars norm.length ++
      ['|'] ++ time_fp
  else
    norm.take 20000 ++ ['|'] ++ time_fp

/-- The fallback signature material exactly as claim C7 words it: the tuple
(document-name stem, page count, normalized text length, date fingerprint). -/
def claimC7_fallback_sig (stem : List Char) (page_count : Nat)
    (text : List Char) (extracted_dates : List Int) : List Char :=
  stem ++ ['|'] ++ natChars page_count ++ ['|'] ++
    natChars (normalize_for_dedup text).length ++ ['|'] ++
    List.intercalate ['|'] ((extracted_dates.take 3).map dateFingerprint)

/-- The content signature material exactly as claim C7 words it: the
normalized text truncated to 20000 characters concatenated with up to 3 date
fingerprints. -/
def claimC7_content_sig (text : List Char) (extracted_dates : List Int) :
    List Char :=
  (normalize_for_dedup text).take 20000 ++ ['|'] ++
    List.intercalate ['|'] ((extracted_dates.take 3).map dateFingerprint)

/-- Context classification stored in `date_type_hint` by
`build_time_anchor_candidates` (auto_recognize_and_generate.py): the line
containing a date is classified as transaction / system / content-claimed /
uncertain time.  `none` models a date absent from the dict. -/
inductive CtxHint
  | tx
  | sys
  | content
  | uncertain
deriving DecidableEq

/-- String form of a context hint, as written into candidate rows. -/
def CtxHint.str : CtxHint → String
  | .tx => "transaction_date"
  | .sys => "system_generated"
  | .content => "content_claimed"
  | .uncertain => "uncertain"

/-- One candidate row of `cand_rows` in `build_time_anchor_candidates`. -/
structure CandRow where
  date : Int
  channels : List String
  score : Int
  in_period : Bool
  channel_best : Int
  confidence : String
  anchor_type : String
  anchor_source : String
  excluded : Bool
deriving DecidableEq

/-- Result dictionary of `build_time_anchor_candidates` (the empty-candidate
branch omits `anchor_types` in the source; it is modelled as `[]`). -/
structure AnchorResult where
  selected_dates : List Int
  channels_used : List String
  anchor_types : List String
  selected_anchor_type : String
  selected_anchor_source : String
  note : String
  conflict_flag : Bool
  selection_rule : String
  candidates : List CandRow
deriving DecidableEq

/-- First-occurrence deduplication, matching Python dict insertion order. -/
def firstOccurDedup (seen : List Int) : List Int → List Int
  | [] => []
  | d :: rest =>
    if d ∈ seen then firstOccurDedup seen rest
    else d :: firstOccurDedup (d :: seen) rest

/-- The per-occurrence score contribution of the inner `add` closure:
channel weight, in-period bonus / out-of-period penalty, contextual hint
adjustment, noise-exclusion penalty, procedural-document penalty. -/
def addScore (ps pe : Option Int) (hint : Int → Option CtxHint)
    (excluded : Int → Bool) (evidence_kind : String) (w d : Int) : Int :=
  let s1 := w
  let s2 :=
    if ps.isSome && pe.isSome then
      if ps.getD 0 ≤ d && d ≤ pe.getD 0 then s1 + 3 else s1 - 2
    else s1
  let s3 :=
    match hint d with
    | some .tx => s2 + 4
    | some .sys => s2 + 2
    | some .content => s2 - 4
    | some .uncertain => s2 - 1
    | none => s2
  let s4 := if excluded d then s3 - 6 else s3
  if st evidence_kind = "程序文件" then s4 - 6 else s4

/-- `date_score[d]`: every occurrence of `d` in a channel list contributes
one `add` score with that channel's weight (评价 8, 交易 7, 物流 6, 基础 3). -/
def dateScore (base review order logistics : List Int) (ps pe : Option Int)
    (hint : Int → Option CtxHint) (excluded : Int → Bool)
    (evidence_kind : String) (d : Int) : Int :=
  (base.count d : Int) * addScore ps pe hint excluded evidence_kind 3 d +
  (review.count d : Int) * addScore ps pe hint excluded evidence_kind 8 d +
  (order.count d : Int) * addScore ps pe hint excluded evidence_kind 7 d +
  (logistics.count d : Int) * addScore ps pe hint excluded evidence_kind 6 d

/-- `date_channels[d]` sorted by descending channel priority
(评价 4 > 交易 3 > 物流 2 > 基础 1), as `sorted(..., key=-priority)` yields. -/
def channelsOf (base review order logistics : List Int) (d : Int) :
    List String :=
  (if d ∈ review then ["评价"] else []) ++
  (if d ∈ order then ["交易"] else []) ++
  (if d ∈ logistics then ["物流"] else []) ++
  (if d ∈ base then ["基础"] else [])

/-- `channel_priority` lookup with default 0. -/
def channelPriority (ch : String) : Int :=
  if ch = "评价" then 4
  else if ch = "交易" then 3
  else if ch = "物流" then 2
  else if ch = "基础" then 1
  else 0

/-- `max([...], default=0)` over channel priorities. -/
def channelBest (channels : List String) : Int :=
  (channels.map channelPriority).foldl max 0

/-- Construction of one candidate row for date `d`. -/
def mkCandRow (base review order logistics : List Int) (ps pe : Option Int)
    (hint : Int → Option CtxHint) (excluded : Int → Bool)
    (evidence_kind : String) (d : Int) : CandRow :=
  let channels := channelsOf base review order logistics d
  let score := dateScore base review order logistics ps pe hint excluded evidence_kind d
  let in_period :=
    ps.isSome && pe.isSome && (ps.getD 0 ≤ d && d ≤ pe.getD 0)
  let anchor_type :=
    if channels.contains "交易" || channels.contains "物流" then "transaction_date"
    else if channels.contains "评价" then "system_generated"
    else ((hint d).getD .uncertain).str
  let anchor_source := channels.headD "基础"
  let conf :=
    if 11 ≤ score then "HIGH" else if 7 ≤ score then "MEDIUM" else "LOW"
  { date := d, channels := channels, score := score, in_period := in_period,
    channel_best := channelBest channels, confidence := conf,
    anchor_type := anchor_type, anchor_source := anchor_source,
    excluded := excluded d }

/-- The sort key comparison of `cand_rows.sort`: in-period first, channel
priority descending, score descending, date ascending. -/
def rowLe (a b : CandRow) : Bool :=
  let ka : Nat := if a.in_period then 0 else 1
  let kb : Nat := if b.in_period then 0 else 1
  if ka ≠ kb then ka < kb
  else if a.channel_best ≠ b.channel_best then b.channel_best < a.channel_best
  else if a.score ≠ b.score then b.score < a.score
  else a.date ≤ b.date

/-- Insertion into a `rowLe`-sorted list. -/
def insertRow (r : CandRow) : List CandRow → List CandRow
  | [] => [r]
  | x :: xs => if rowLe r x then r :: x :: xs else x :: insertRow r xs

/-- Insertion sort of candidate rows (the rows carry pairwise distinct
dates, so the key order is total and the result is the unique sorted
arrangement, as produced by the source's stable `list.sort`). -/
def sortRows (l : List CandRow) : List CandRow :=
  l.foldr insertRow []

/-- `sorted(set(xs))` over model dates (ISO strings sort chronologically, so
string sorting in the source equals integer sorting here). -/
def sortedDedupInt (l : List Int) : List Int :=
  (firstOccurDedup [] l).insertionSort (· ≤ ·)

/-- `build_time_anchor_candidates` from auto_recognize_and_generate.py.
The `hint` and `excluded` maps stand for `date_type_hint` / `date_excluded`
as produced by the context-line classification loop over `context_text`
(keyword and regex matching over external OCR text); an empty context yields
`fun _ => none` and `fun _ => false`. -/
def build_time_anchor_candidates (base review order logistics : List Int)
    (ps pe : Option Int) (top_k : Nat) (hint : Int → Option CtxHint)
    (excluded : Int → Bool) (evidence_kind : String) : AnchorResult :=
  let allDates := firstOccurDedup [] (base ++ review ++ order ++ logistics)
  if allDates.isEmpty then
    { selected_dates := [], channels_used := [], anchor_types := [],
      selected_anchor_type := "uncertain", selected_anchor_source := "基础",
      note := "", conflict_flag := false, selection_rule := "无候选日期",
      candidates := [] }
  else
    let rows := allDates.map
      (mkCandRow base review order logistics ps pe hint excluded evidence_kind)
    let top := (sortRows rows).take (max 1 top_k)
    let conflict_flag :=
      top.any (fun c => c.in_period) && top.any (fun c => !c.in_period)
    let in_period_top := top.filter (fun c => c.in_period)
    let selected := if in_period_top.isEmpty then top else in_period_top
    let selected_dates := sortedDedupInt (selected.map (fun r => r.date))
    let channels_used :=
      ["评价", "交易", "物流", "基础"].filter
        (fun ch => selected.any (fun r => r.channels.contains ch))
    let anchor_types :=
      ["transaction_date", "system_generated", "content_claimed", "uncertain"].filter
        (fun t => selected.any (fun r => r.anchor_type = t))
    let selected_anchor_source :=
      ((selected.map (fun r => r.anchor_source)).headD "基础")
    let note_parts :=
      (if !channels_used.isEmpty then
        ["候选通道：" ++ String.intercalate "、" channels_used] else []) ++
      (if conflict_flag && !in_period_top.isEmpty then
        ["检测到期内/期外冲突，已优先采用期内候选"] else []) ++
      (if top.any (fun r => r.excluded) then
        ["已对活动/检验/有效期等噪声日期降权"] else []) ++
      (if !anchor_types.isEmpty then
        ["时间来源类型：" ++ String.intercalate "、" anchor_types] else []) ++
      (if selected_anchor_source ≠ "" then
        ["时间来源通道：" ++ selected_anchor_source] else [])
    { selected_dates := selected_dates,
      channels_used := channels_used,
      anchor_types := anchor_types,
      selected_anchor_type := anchor_types.headD "uncertain",
      selected_anchor_source := selected_anchor_source,
      note := String.intercalate "；" note_parts,
      conflict_flag := conflict_flag,
      selection_rule := "通道优先(评价>交易>物流>基础)+期内优先+噪声降权+分值排序",
      candidates := top }

/-- Python substring containment `pat in hay`. -/
def listContains (pat : List Char) : List Char → Bool
  | [] => pat.isEmpty
  | c :: rest => pat.isPrefixOf (c :: rest) || listContains pat rest

/-- Substring containment on `String`. -/
def strContains (hay pat : String) : Bool :=
  listContains pat.data hay.data

/-- `normalize_yesno` from generate_suite_v2.py. -/
def normalize_yesno (x : String) : String :=
  let s := su x
  if s = "Y" || s = "YES" || s = "1" || s = "是" || s = "TRUE" then "Y"
  else if s = "N" || s = "NO" || s = "0" || s = "否" || s = "FALSE" then "N"
  else ""

/-- `overlap` from generate_suite_v2.py: false when any bound is missing,
else ranges intersect. -/
def overlapB (a1 a2 b1 b2 : Option Int) : Bool :=
  match a1, a2, b1, b2 with
  | some s1, some e1, some s2, some e2 => !(e1 < s2 || e2 < s1)
  | _, _, _, _ => false

/-- Regex-level material of a free-text date-range cell, i.e. what the
`_RANGE_SPLIT` / `_DATE_RE_1` / `_DATE_RE_2` regexes of generate_suite_v2.py
yield on the `Time Anchor Text` (or fallback `Content Summary` /
`Evidence Name`) string:
* `text_nonempty` — the string is truthy and strips to non-empty;
* `parts2` — `some (d1, d2)` when the range-separator split leaves at least
  two parts, where `d1`/`d2` are `_to_date_obj` of the first two parts;
* `raw_dates` — the dates matched in order by the two date regexes;
* `whole` — `_to_date_obj` of the whole string. -/
structure RangeInput where
  text_nonempty : Bool
  parts2 : Option (Option Int × Option Int)
  raw_dates : List Int
  whole : Option Int

/-- `extract_dates_from_text` from generate_suite_v2.py: the regex matches,
de-duplicated and sorted. -/
def extract_dates_from_text (ri : RangeInput) : List Int :=
  if !ri.text_nonempty then [] else sortedDedupInt ri.raw_dates

/-- The fall-through tail of `parse_range_from_text`: extract all dates in
the text, else fall back to parsing the whole string as a single date. -/
def parse_range_fallback (ri : RangeInput) : Option Int × Option Int :=
  match extract_dates_from_text ri with
  | [] =>
    match ri.whole with
    | some d => (some d, some d)
    | none => (none, none)
  | [d] => (some d, some d)
  | d :: e :: rest => (some d, some ((e :: rest).getLastD e))

/-- `parse_range_from_text` from generate_suite_v2.py, branch by branch. -/
def parse_range_from_text (ri : RangeInput) : Option Int × Option Int :=
  if !ri.text_nonempty then (none, none)
  else
    match ri.parts2 with
    | some (some d1, some d2) => (some (min d1 d2), some (max d1 d2))
    | _ => parse_range_fallback ri

/-- One spreadsheet row of the defense evidence table, holding the cells
build_defense_diagnostics and its helpers read.  String cells hold the raw
cell text (missing cell ↦ `""`); date cells hold the `_to_date_obj` parse
result; `anchor_text` holds the regex-level material of the time-anchor
text. -/
structure Row where
  evidence_id : String
  date_start : Option Int
  date_end : Option Int
  formation : Option Int
  date_confidence : String
  date_validity : String
  amount_validity : String
  party_validity : String
  goods_validity : String
  mark_validity : String
  time_anchor_allowed : String
  time_gate_scope : String
  etype : String
  goods_services : String
  goods_match_level : String
  mark_shown : String
  mark_name_confidence : String
  subject_match : String
  entity_consistency : String
  commercial_loop : String
  verifiable : String
  trade_amount : String
  trade_counterparty : String
  proof_targets : String
  anchor_text : RangeInput

/-- Result record of `infer_time_anchor_row` (the human-readable
`anchor_text` string of the source is not modelled; no claim reads it). -/
structure TimeAnchorInfo where
  formation_date : Option Int
  anchor_start : Option Int
  anchor_end : Option Int
  confidence : String
  contradiction : Bool

/-- The cross-period contradiction heuristic of `infer_time_anchor_row`:
formation date outside the anchor range by more than 30 days on both ends. -/
def contradictionFlag (formation a_start a_end : Option Int) : Bool :=
  match formation, a_start, a_end with
  | some f, some s, some e =>
    if !(s ≤ f && f ≤ e) then
      decide (30 < (f - s).natAbs) && decide (30 < (f - e).natAbs)
    else false
  | _, _, _ => false

/-- `infer_time_anchor_row` from generate_suite_v2.py: explicit range first
(min/max ordered, HIGH), then formation date (equal pair, MEDIUM), then
parsing from text (MEDIUM when a range is found, LOW otherwise); an explicit
`Date Confidence` cell overrides the derived tier. -/
def infer_time_anchor_row (r : Row) : TimeAnchorInfo :=
  let confidence0 := su r.date_confidence
  let confidence :=
    if confidence0 = "HIGH" || confidence0 = "MEDIUM" || confidence0 = "LOW"
    then confidence0 else ""
  let formation := r.formation
  if r.date_start.isSome && r.date_end.isSome then
    let a := min (r.date_start.getD 0) (r.date_end.getD 0)
    let b := max (r.date_start.getD 0) (r.date_end.getD 0)
    { formation_date := formation, anchor_start := some a, anchor_end := some b,
      confidence := if confidence ≠ "" then confidence else "HIGH",
      contradiction := contradictionFlag formation (some a) (some b) }
  else
    match formation with
    | some f =>
      { formation_date := formation, anchor_start := some f, anchor_end := some f,
        confidence := if confidence ≠ "" then confidence else "MEDIUM",
        contradiction := contradictionFlag formation (some f) (some f) }
    | none =>
      let p := parse_range_from_text r.anchor_text
      let conf :=
        if p.1.isSome && p.2.isSome then
          if confidence ≠ "" then confidence else "MEDIUM"
        else if confidence ≠ "" then confidence else "LOW"
      { formation_date := formation, anchor_start := p.1, anchor_end := p.2,
        confidence := conf,
        contradiction := contradictionFlag formation p.1 p.2 }

/-- `evidence_in_period`: anchor range overlaps the defined period. -/
def evidence_in_period (a_start a_end ps pe : Option Int) : Bool :=
  overlapB a_start a_end ps pe

/-- `time_anchor_allowed_row` from generate_suite_v2.py: explicit
`Time Anchor Allowed` wins, then `Time Gate Scope = N` excludes, then
procedural documents (`程序文件`) are excluded. -/
def time_anchor_allowed_row (r : Row) : Bool :=
  let allowed := su r.time_anchor_allowed
  if allowed = "Y" || allowed = "N" then allowed = "Y"
  else if su r.time_gate_scope = "N" then false
  else !(st r.etype = "程序文件")

/-- The explicit validity-override cell for a field key. -/
def validityOverride (r : Row) (key : String) : String :=
  if key = "date" then r.date_validity
  else if key = "amount" then r.amount_validity
  else if key = "party" then r.party_validity
  else if key = "goods" then r.goods_validity
  else if key = "mark_presence" then r.mark_validity
  else ""

/-- `_field_validity` from generate_suite_v2.py, branch by branch. -/
def field_validity (r : Row) (key : String) : String :=
  if su (validityOverride r key) = "VALID" ||
     su (validityOverride r key) = "INVALID" ||
     su (validityOverride r key) = "N/A" then su (validityOverride r key)
  else if key = "date" then
    if !time_anchor_allowed_row r then "N/A"
    else if (infer_time_anchor_row r).anchor_start.isSome &&
        (infer_time_anchor_row r).anchor_end.isSome &&
        ((infer_time_anchor_row r).confidence = "HIGH" ||
         (infer_time_anchor_row r).confidence = "MEDIUM") then "VALID"
    else "INVALID"
  else if key = "goods" then
    if su r.goods_match_level = "G1" || su r.goods_match_level = "G2" then "VALID"
    else "INVALID"
  else if key = "mark_presence" then
    if normalize_yesno r.mark_shown = "Y" &&
        (su r.mark_name_confidence = "" || su r.mark_name_confidence = "HIGH" ||
         su r.mark_name_confidence = "MEDIUM" ||
         su r.mark_name_confidence = "N/A") then "VALID"
    else "INVALID"
  else if key = "amount" || key = "party" then
    if !(strContains (st r.etype) "交易" || strContains (st r.etype) "合同") then "N/A"
    else if (if key = "amount" then st r.trade_amount else st r.trade_counterparty) ≠ ""
    then "VALID"
    else "INVALID"
  else "INVALID"

/-- `_targets_for_scoring` from generate_suite_v2.py: targets claimed in the
`Proof Target` cell, filtered by the validity of their backing field. -/
def targets_for_scoring (r : Row) : List String :=
  let targets :=
    (["T1", "T2", "T3", "T4", "T5", "T6"]).filter
      (fun t => strContains (st r.proof_targets) t)
  targets.filter (fun t =>
    !((t = "T4" && !(field_validity r "date" = "VALID")) ||
      (t = "T3" && !(field_validity r "goods" = "VALID")) ||
      (t = "T2" && !(field_validity r "mark_presence" = "VALID")) ||
      (t = "T6" && !(field_validity r "amount" = "VALID" &&
                     field_validity r "party" = "VALID"))))

/-- The externally supplied rule profile, with the documented fallback
values of `_runtime_get` as defaults (weights as exact rationals standing
for the source's floats). -/
structure Profile where
  time_base : ℚ := 40
  time_in_period_highmed : ℚ := 45
  time_in_period_low : ℚ := 15
  time_unknown_penalty : ℚ := 35
  time_contradiction_penalty : ℚ := 20
  time_out_period_penalty : ℚ := 10
  map_base : ℚ := 30
  map_per_target : ℚ := 10
  map_goods_ratio_bonus : ℚ := 20
  loop_base : ℚ := 45
  loop_ratio_bonus : ℚ := 30
  loop_mark_ratio_bonus : ℚ := 15
  loop_subject_ratio_bonus : ℚ := 10
  weak_loop_penalty : ℚ := 10
  weak_loop_proxy_min : Int := 6
  ver_base : ℚ := 25
  ver_verifiable_ratio_bonus : ℚ := 70
  ver_contradiction_penalty : ℚ := 15
  hard_fail_level : String := "E"
  both_g5_g6_if_anchor_ok : String := "C"
  both_g5_g6_if_anchor_not_ok : String := "D"
  one_of_g5_g6_if_anchor_ok : String := "B"
  one_of_g5_g6_if_anchor_not_ok : String := "C"
  avg_A_min : ℚ := 85
  min_dim_A_min : ℚ := 75
  avg_B_min : ℚ := 68
  avg_C_min : ℚ := 55
  min_time_score : ℚ := 45
  min_mapping_score : ℚ := 85
  min_loop_score : ℚ := 45
  min_verif_score : ℚ := 85
  min_in_period_highmed : Int := 8
  max_unknown_time : Int := 8

/-- The default profile (every `_runtime_get` falls back). -/
def defaultProfile : Profile := {}

/-- Whether the row survives the `if not eid: continue` guard. -/
def rowKept (r : Row) : Bool :=
  !(st r.evidence_id = "")

/-- Abbreviation: date-field validity is VALID. -/
def rowDateValid (r : Row) : Bool :=
  field_validity r "date" = "VALID"

/-- The per-row `in_period` flag of the diagnostics loop: period and anchor
bounds all present, and the ranges overlap. -/
def rowInPeriod (ps pe : Option Int) (r : Row) : Bool :=
  let ti := infer_time_anchor_row r
  ps.isSome && pe.isSome && ti.anchor_start.isSome && ti.anchor_end.isSome &&
    evidence_in_period ti.anchor_start ti.anchor_end ps pe

/-- Trade-like document test (`交易` or `合同` in the Type cell). -/
def rowTradeLike (r : Row) : Bool :=
  strContains (st r.etype) "交易" || strContains (st r.etype) "合同"

/-- Aggregate counters accumulated by the main loop of
`build_defense_diagnostics`. -/
structure DiagSummary where
  total : Nat
  eligible_time_rows : Nat
  in_period_highmed : Nat
  in_period_low : Nat
  out_period : Nat
  unknown_time : Nat
  contradictions : Nat
  in_period_reference : Nat
  program_in_period : Nat
  goods_matched_allowed : Nat
  mark_yes_allowed : Nat
  subject_yes_allowed : Nat
  loop_yes_allowed : Nat
  verifiable_yes_allowed : Nat
  t5_allowed : Nat
  covered_targets : Nat

/-- Count of kept rows covering target `t` in scored (allowed) coverage:
`allowed and t in targets and t in score_targets`. -/
def tCoverageAllowed (rows : List Row) (t : String) : Nat :=
  (rows.filter rowKept).countP (fun r =>
    strContains (st r.proof_targets) t && time_anchor_allowed_row r &&
      (targets_for_scoring r).contains t)

/-- The aggregate counters of `build_defense_diagnostics`, expressed as
counts of the corresponding branch conditions over the kept rows. -/
def buildSummary (rows : List Row) (ps pe : Option Int) : DiagSummary :=
  let kept := rows.filter rowKept
  let allowedValid := fun r => time_anchor_allowed_row r && rowDateValid r
  let anchors := fun r =>
    (infer_time_anchor_row r).anchor_start.isSome &&
    (infer_time_anchor_row r).anchor_end.isSome
  let confHM := fun r =>
    (infer_time_anchor_row r).confidence = "HIGH" ||
    (infer_time_anchor_row r).confidence = "MEDIUM"
  { total := kept.length
    eligible_time_rows := kept.countP allowedValid
    in_period_highmed := kept.countP (fun r =>
      time_anchor_allowed_row r && rowDateValid r && anchors r &&
        rowInPeriod ps pe r && confHM r)
    in_period_low := kept.countP (fun r =>
      time_anchor_allowed_row r && rowDateValid r && anchors r &&
        rowInPeriod ps pe r && !confHM r)
    out_period := kept.countP (fun r =>
      time_anchor_allowed_row r && rowDateValid r && anchors r &&
        !rowInPeriod ps pe r)
    unknown_time := kept.countP (fun r =>
      time_anchor_allowed_row r && !(rowDateValid r && anchors r))
    contradictions := kept.countP (fun r => (infer_time_anchor_row r).contradiction)
    in_period_reference := kept.countP (fun r =>
      !allowedValid r && rowInPeriod ps pe r)
    program_in_period := kept.countP (fun r =>
      !allowedValid r && rowInPeriod ps pe r && st r.etype = "程序文件")
    goods_matched_allowed := kept.countP (fun r =>
      field_validity r "goods" = "VALID" &&
        (su r.goods_match_level = "G1" || su r.goods_match_level = "G2") &&
        time_anchor_allowed_row r)
    mark_yes_allowed := kept.countP (fun r =>
      field_validity r "mark_presence" = "VALID" && time_anchor_allowed_row r)
    subject_yes_allowed := kept.countP (fun r =>
      (normalize_yesno r.subject_match = "Y" ||
        su r.entity_consistency = "E1" || su r.entity_consistency = "E2") &&
        time_anchor_allowed_row r)
    loop_yes_allowed := kept.countP (fun r =>
      normalize_yesno r.commercial_loop = "Y" && time_anchor_allowed_row r &&
        (!rowTradeLike r ||
          (field_validity r "amount" = "VALID" && field_validity r "party" = "VALID")))
    verifiable_yes_allowed := kept.countP (fun r =>
      normalize_yesno r.verifiable = "Y" && time_anchor_allowed_row r)
    t5_allowed := tCoverageAllowed rows "T5"
    covered_targets :=
      ((["T1", "T2", "T3", "T4", "T5", "T6"]).filter
        (fun t => 0 < tCoverageAllowed rows t)).length }

/-- The gate flags of `build_defense_diagnostics` (`bool(detail)` per
gate). -/
structure GateFlags where
  g1a : Bool
  g1b : Bool
  g1c : Bool
  g1d : Bool
  g2 : Bool
  g3 : Bool
  g4 : Bool
  g5 : Bool
  g6 : Bool

/-- The four dimension scores. -/
structure DimScores where
  time : ℚ
  mapping : ℚ
  loop : ℚ
  verifiability : ℚ

/-- Diagnostics result (the parts the risk-level derivation consumes). -/
structure Diag where
  gate_flags : GateFlags
  dim_scores : DimScores
  summary : DiagSummary

/-- `clamp` from generate_suite_v2.py with default bounds. -/
def clampQ (x : ℚ) : ℚ :=
  max 0 (min 100 x)

/-- Python `round(x, 1)` (ties rounded here to nearest-half-up rather than
banker's; no value in this development lands on an exact tie). -/
def round1 (x : ℚ) : ℚ :=
  (round (x * 10) : ℚ) / 10

/-- `weak_loop_proxy`: the minimum of the four substitute-chain counters. -/
def weakLoopProxy (s : DiagSummary) : Nat :=
  min (min s.mark_yes_allowed s.subject_yes_allowed)
    (min s.t5_allowed s.in_period_highmed)

/-- The gate-flag block of `build_defense_diagnostics`. -/
def buildGates (p : Profile) (s : DiagSummary) (periodOk : Bool) : GateFlags :=
  { g1a := !periodOk
    g1b := periodOk && s.in_period_highmed = 0 &&
      (s.in_period_low = 0 || 0 < s.in_period_reference)
    g1c := periodOk && s.in_period_highmed = 0 && 0 < s.in_period_low
    g1d := 0 < s.contradictions
    g2 := s.goods_matched_allowed = 0
    g3 := s.mark_yes_allowed = 0
    g4 := s.subject_yes_allowed = 0
    g5 := s.loop_yes_allowed = 0 &&
      (weakLoopProxy s : Int) < p.weak_loop_proxy_min
    g6 := s.verifiable_yes_allowed = 0 }

/-- The dimension-score block of `build_defense_diagnostics`. -/
def buildDimScores (p : Profile) (s : DiagSummary) (periodOk : Bool) : DimScores :=
  let time_ev : ℚ := max 1 (s.eligible_time_rows : ℚ)
  let allowed_ev : ℚ := max 1 (s.eligible_time_rows : ℚ)
  let time_score :=
    if periodOk then
      p.time_base +
        p.time_in_period_highmed * (s.in_period_highmed / time_ev) +
        p.time_in_period_low * (s.in_period_low / time_ev) -
        p.time_unknown_penalty * (s.unknown_time / time_ev) -
        p.time_contradiction_penalty * (s.contradictions / time_ev) -
        p.time_out_period_penalty * (s.out_period / time_ev)
    else 0
  let mapping_score :=
    p.map_base + p.map_per_target * (s.covered_targets : ℚ) +
      p.map_goods_ratio_bonus * (s.goods_matched_allowed / allowed_ev)
  let loop_score0 :=
    p.loop_base + p.loop_ratio_bonus * (s.loop_yes_allowed / allowed_ev) +
      p.loop_mark_ratio_bonus * (s.mark_yes_allowed / allowed_ev) +
      p.loop_subject_ratio_bonus * (s.subject_yes_allowed / allowed_ev)
  let loop_score :=
    if s.loop_yes_allowed = 0 && (weakLoopProxy s : Int) < p.weak_loop_proxy_min
    then loop_score0 - p.weak_loop_penalty else loop_score0
  let verif_score :=
    p.ver_base + p.ver_verifiable_ratio_bonus * (s.verifiable_yes_allowed / allowed_ev) -
      p.ver_contradiction_penalty * (s.contradictions / time_ev)
  { time := round1 (clampQ time_score)
    mapping := round1 (clampQ mapping_score)
    loop := round1 (clampQ loop_score)
    verifiability := round1 (clampQ verif_score) }

/-- `build_defense_diagnostics` from generate_suite_v2.py: summary counters,
gate flags and dimension scores over the evidence rows and the (possibly
unresolved) defined period. -/
def build_defense_diagnostics (p : Profile) (rows : List Row)
    (ps pe : Option Int) : Diag :=
  let periodOk := ps.isSome && pe.isSome
  let s := buildSummary rows ps pe
  { gate_flags := buildGates p s periodOk
    dim_scores := buildDimScores p s periodOk
    summary := s }

/-- `meets_anchor_minimum` from generate_suite_v2.py. -/
def meets_anchor_minimum (p : Profile) (d : Diag) : Bool :=
  d.dim_scores.time ≥ p.min_time_score &&
  d.dim_scores.mapping ≥ p.min_mapping_score &&
  d.dim_scores.loop ≥ p.min_loop_score &&
  d.dim_scores.verifiability ≥ p.min_verif_score &&
  (d.summary.in_period_highmed : Int) ≥ p.min_in_period_highmed &&
  (d.summary.unknown_time : Int) ≤ p.max_unknown_time

/-- `risk_level_from_case` from generate_suite_v2.py: gates first, then the
average/minimum dimension ladder. -/
def risk_level_from_case (p : Profile) (d : Diag) : String :=
  let gf := d.gate_flags
  let ds := d.dim_scores
  let anchor_ok := meets_anchor_minimum p d
  if gf.g1a || gf.g1b then p.hard_fail_level
  else if gf.g2 || gf.g3 || gf.g4 then p.hard_fail_level
  else if gf.g5 && gf.g6 then
    if anchor_ok then p.both_g5_g6_if_anchor_ok else p.both_g5_g6_if_anchor_not_ok
  else if gf.g5 || gf.g6 then
    if anchor_ok then p.one_of_g5_g6_if_anchor_ok else p.one_of_g5_g6_if_anchor_not_ok
  else
    let avg := (ds.time + ds.mapping + ds.loop + ds.verifiability) / 4
    let mn := min (min ds.time ds.mapping) (min ds.loop ds.verifiability)
    if avg ≥ p.avg_A_min && mn ≥ p.min_dim_A_min then "A"
    else if avg ≥ p.avg_B_min then "B"
    else if avg ≥ p.avg_C_min then "C"
    else "D"

/-- Claim C1's per-document predicate, as the claim words it: an in-scope
(coverage-allowed) document whose anchor has confidence HIGH, MEDIUM or LOW
and falls inside the defined period. -/
def claimC1_inScopeHML (ps pe : Option Int) (r : Row) : Bool :=
  rowKept r && time_anchor_allowed_row r &&
    ((infer_time_anchor_row r).confidence = "HIGH" ||
     (infer_time_anchor_row r).confidence = "MEDIUM" ||
     (infer_time_anchor_row r).confidence = "LOW") &&
    rowInPeriod ps pe r

/-- Amended-C1 predicate: a counted document with in-scope valid-date
in-period coverage at HIGH or MEDIUM confidence (the `in_period_highmed`
bucket). -/
def c1HighMedCovered (ps pe : Option Int) (r : Row) : Bool :=
  rowKept r && time_anchor_allowed_row r && rowDateValid r &&
    rowInPeriod ps pe r &&
    ((infer_time_anchor_row r).confidence = "HIGH" ||
     (infer_time_anchor_row r).confidence = "MEDIUM")

/-- Amended-C1 predicate: in-scope valid-date in-period coverage at a
confidence below HIGH/MEDIUM (the `in_period_low` bucket). -/
def c1LowCovered (ps pe : Option Int) (r : Row) : Bool :=
  rowKept r && time_anchor_allowed_row r && rowDateValid r &&
    rowInPeriod ps pe r &&
    !((infer_time_anchor_row r).confidence = "HIGH" ||
      (infer_time_anchor_row r).confidence = "MEDIUM")

/-- Amended-C1 predicate: an in-period document excluded from scored
coverage (the `in_period_reference` bucket: reference lane). -/
def c1ReferenceInPeriod (ps pe : Option Int) (r : Row) : Bool :=
  rowKept r && !(time_anchor_allowed_row r && rowDateValid r) &&
    rowInPeriod ps pe r

/-- Regex material of an empty time-anchor text cell. -/
def blankRangeInput : RangeInput :=
  { text_nonempty := false, parts2 := none, raw_dates := [], whole := none }

/-- An evidence row with every cell empty. -/
def blankRow : Row :=
  { evidence_id := "", date_start := none, date_end := none, formation := none,
    date_confidence := "", date_validity := "", amount_validity := "",
    party_validity := "", goods_validity := "", mark_validity := "",
    time_anchor_allowed := "", time_gate_scope := "", etype := "",
    goods_services := "", goods_match_level := "", mark_shown := "",
    mark_name_confidence := "", subject_match := "", entity_consistency := "",
    commercial_loop := "", verifiable := "", trade_amount := "",
    trade_counterparty := "", proof_targets := "",
    anchor_text := blankRangeInput }

/-- A coverage-allowed row with an explicit in-period date range whose
`Date Confidence` cell says LOW (used against claim C1: its date validity is
INVALID, so it lands in the reference bucket, not the low bucket). -/
def rowLowConf : Row :=
  { blankRow with evidence_id := "E1", date_start := some 10,
                  date_end := some 20, date_confidence := "LOW" }

/-- A row whose mark is shown but whose mark-name confidence cell is empty
(used against claim C8). -/
def rowMarkY : Row :=
  { blankRow with evidence_id := "E1", mark_shown := "Y" }

/-- A row with explicit but reversed date bounds (used as the C5 witness). -/
def rowExplicitRange : Row :=
  { blankRow with evidence_id := "E1", date_start := some 5, date_end := some 3 }

/-- A case-info record with every required field present (C3 fixtures). -/
def fullCaseInfo : CaseInfo :=
  { reg_no := "No123", class_field := "25", mark_name := "MARK",
    respondent := "R", applicant := "A" }

/-! ## Helper lemmas -/

/-- Insertion preserves membership. -/
lemma mem_insertRow (r x : CandRow) (l : List CandRow) :
    x ∈ insertRow r l ↔ x = r ∨ x ∈ l := by
  induction l with
  | nil => simp [insertRow]
  | cons y ys ih =>
    by_cases h : rowLe r y
    · simp [insertRow, h]
    · simp only [insertRow, h, if_neg, Bool.false_eq_true, if_false,
        List.mem_cons, ih]
      tauto

/-- Sorting preserves membership. -/
lemma mem_sortRows (x : CandRow) (l : List CandRow) :
    x ∈ sortRows l ↔ x ∈ l := by
  induction l with
  | nil => simp [sortRows]
  | cons y ys ih =>
    show x ∈ insertRow y (sortRows ys) ↔ _
    rw [mem_insertRow]
    simp only [List.mem_cons, ih]

/-- A sorted cons is bounded by its last element. -/
lemma sorted_head_le_getLastD (l : List Int) (a : Int)
    (h : (a :: l).Sorted (· ≤ ·)) : a ≤ l.getLastD a := by
  induction l generalizing a with
  | nil => simp
  | cons b t ih =>
    rw [List.getLastD_cons]
    have hab : a ≤ b := (List.sorted_cons.mp h).1 b (by simp)
    exact le_trans hab (ih b (List.sorted_cons.mp h).2)

/-- `sortedDedupInt` results are sorted. -/
lemma sortedDedupInt_sorted (l : List Int) :
    (sortedDedupInt l).Sorted (· ≤ ·) :=
  List.sorted_insertionSort _ _

/-- `extract_dates_from_text` results are sorted. -/
lemma extract_dates_sorted (ri : RangeInput) :
    (extract_dates_from_text ri).Sorted (· ≤ ·) := by
  unfold extract_dates_from_text
  split
  · exact List.sorted_nil
  · exact sortedDedupInt_sorted _

/-- The fallback of range parsing only returns ordered pairs. -/
lemma parse_range_fallback_ordered (ri : RangeInput) (s e : Int)
    (hs : (parse_range_fallback ri).1 = some s)
    (he : (parse_range_fallback ri).2 = some e) : s ≤ e := by
  unfold parse_range_fallback at hs he
  rcases hds : extract_dates_from_text ri with _ | ⟨d, _ | ⟨e2, rest⟩⟩ <;>
    rw [hds] at hs he
  · rcases hw : ri.whole with _ | w <;> rw [hw] at hs he <;> simp_all
  · simp_all
  · change some d = some s at hs
    change some ((e2 :: rest).getLastD e2) = some e at he
    injection hs with hs
    injection he with he
    have key := sorted_head_le_getLastD (e2 :: rest) d
      (hds ▸ extract_dates_sorted ri)
    rw [List.getLastD_cons] at he key
    omega

/-- `parse_range_from_text` only returns ordered pairs. -/
lemma parse_range_from_text_ordered (ri : RangeInput) (s e : Int)
    (hs : (parse_range_from_text ri).1 = some s)
    (he : (parse_range_from_text ri).2 = some e) : s ≤ e := by
  unfold parse_range_from_text at hs he
  by_cases ht : ri.text_nonempty
  · rw [ht] at hs he
    simp only [Bool.not_true, Bool.false_eq_true, if_false] at hs he
    rcases hp : ri.parts2 with _ | ⟨_ | v1, _ | v2⟩ <;> rw [hp] at hs he
    · exact parse_range_fallback_ordered ri s e hs he
    · exact parse_range_fallback_ordered ri s e hs he
    · exact parse_range_fallback_ordered ri s e hs he
    · exact parse_range_fallback_ordered ri s e hs he
    · change some (min v1 v2) = some s at hs
      change some (max v1 v2) = some e at he
      injection hs with hs
      injection he with he
      subst hs
      subst he
      exact min_le_max
  · simp [Bool.not_eq_true] at ht
    rw [ht] at hs he
    simp at hs he

/-! ## Claim theorems -/

/-- C5: for every document row, the inferred time anchor satisfies
start ≤ end whenever both endpoints are non-null — the explicit-range branch
orders endpoints by min/max, the formation-date branch yields an equal pair,
and every branch of range parsing from text returns an ordered pair. -/
theorem c5_time_anchor_ordered :
    (∀ (r : Row) (s e : Int),
      (infer_time_anchor_row r).anchor_start = some s →
      (infer_time_anchor_row r).anchor_end = some e → s ≤ e) ∧
    (∀ (ri : RangeInput) (s e : Int),
      (parse_range_from_text ri).1 = some s →
      (parse_range_from_text ri).2 = some e → s ≤ e) := by
  refine ⟨?_, parse_range_from_text_ordered⟩
  intro r s e hs he
  unfold infer_time_anchor_row at hs he
  by_cases hd : r.date_start.isSome && r.date_end.isSome
  · simp only [hd, if_true] at hs he
    simp at hs he
    have hm : min (r.date_start.getD 0) (r.date_end.getD 0) ≤
        max (r.date_start.getD 0) (r.date_end.getD 0) := min_le_max
    omega
  · simp only [hd, Bool.false_eq_true, if_false] at hs he
    rcases hf : r.formation with _ | f <;> rw [hf] at hs he
    · simp at hs he
      exact parse_range_from_text_ordered r.anchor_text s e hs he
    · simp at hs he
      omega

/-- C5 witness: a concrete row with reversed explicit bounds. -/
theorem c5_time_anchor_ordered_witness :
    (infer_time_anchor_row rowExplicitRange).anchor_start = some 3 ∧
    (infer_time_anchor_row rowExplicitRange).anchor_end = some 5 ∧
    (3 : Int) ≤ 5 :=
  ⟨by decide, by decide,
   c5_time_anchor_ordered.1 rowExplicitRange 3 5 (by decide) (by decide)⟩

/-- C10: with all four channel candidate lists empty, the resolver returns
the fixed empty-anchor result — empty selection, no conflict, `uncertain`
type, base-channel source, empty candidate list, and the
no-candidate-dates selection rule — for every period, top-K, context
classification and document kind. -/
theorem c10_empty_channels_fixed_result (ps pe : Option Int) (top_k : Nat)
    (hint : Int → Option CtxHint) (excl : Int → Bool) (kind : String) :
    build_time_anchor_candidates [] [] [] [] ps pe top_k hint excl kind =
      { selected_dates := [], channels_used := [], anchor_types := [],
        selected_anchor_type := "uncertain", selected_anchor_source := "基础",
        note := "", conflict_flag := false, selection_rule := "无候选日期",
        candidates := [] } := rfl

/-- C6 (amended): the glyph-to-digit layer `normalize_ocr_digits` is
idempotent. -/
theorem c6_digit_normalizer_idempotent (s : List Char) :
    normalize_ocr_digits (normalize_ocr_digits s) = normalize_ocr_digits s := by
  unfold normalize_ocr_digits
  rw [List.map_map]
  exact List.map_congr_left (fun c _ => ocrDigitTrans_idem c)

/-- C6 counterexample: the full OCR date-text normalizer is not idempotent —
one pass turns `人人年` into `人年`, a second pass collapses it further to
`年`. -/
theorem c6_counterexample :
    normalize_ocr_date_text (normalize_ocr_date_text "人人年".data) ≠
      normalize_ocr_date_text "人人年".data := by decide

/-- C2 (amended): the resolver's derived confidence is HIGH on ≥2 dates or
on ≥1 date backed by a scene channel without metadata fallback; MEDIUM on
exactly one date that has review-channel backing or is not metadata-derived;
LOW otherwise (no dates, or a single metadata-derived date without review
backing). -/
theorem c2_confidence_characterization (dates : List Int)
    (mark_time_lines : List String) (review_dates : List Int)
    (meta_used : Bool) (time_channels : List String) :
    confidence_from_dates dates mark_time_lines review_dates meta_used
        time_channels =
      claimC2_amended_confidence dates review_dates meta_used time_channels := by
  unfold confidence_from_dates claimC2_amended_confidence
  rcases dates with _ | ⟨d0, _ | ⟨d1, drest⟩⟩ <;>
    cases hscene : sceneHit time_channels <;> cases meta_used <;>
    rcases review_dates with _ | ⟨r0, rrest⟩ <;>
    rcases mark_time_lines with _ | ⟨m0, mrest⟩ <;>
    simp_all

/-- C2 counterexample: for a single metadata-derived date with no scene or
review backing the code returns LOW while the claim's policy says MEDIUM. -/
theorem c2_counterexample :
    confidence_from_dates [0] [] [] true [] = "LOW" ∧
    claimC2_confidence [0] true [] = "MEDIUM" ∧
    confidence_from_dates [0] [] [] true [] ≠ claimC2_confidence [0] true [] := by
  decide

/-- C7: the dedup signature is computed over the fallback tuple (name stem,
page count, normalized length, date fingerprint) exactly when the stripped
normalized text is shorter than 80 characters, and otherwise over the
normalized text truncated to 20000 characters plus up to 3 date
fingerprints. -/
theorem c7_dedup_signature_branches (stem : List Char) (pc : Nat)
    (text : List Char) (dates : List Int) :
    ((normalize_for_dedup text).length < 80 →
      dedup_signature_raw stem pc text dates =
        claimC7_fallback_sig stem pc text dates) ∧
    (¬ (normalize_for_dedup text).length < 80 →
      dedup_signature_raw stem pc text dates =
        claimC7_content_sig text dates) := by
  constructor <;> intro h <;>
    simp [dedup_signature_raw, claimC7_fallback_sig, claimC7_content_sig, h]

/-- C7 witness: a short text takes the fallback branch. -/
theorem c7_dedup_signature_branches_witness :
    (normalize_for_dedup "ab".data).length < 80 ∧
    dedup_signature_raw "doc".data 2 "ab".data [5] =
      claimC7_fallback_sig "doc".data 2 "ab".data [5] :=
  ⟨by decide,
   (c7_dedup_signature_branches "doc".data 2 "ab".data [5]).1 (by decide)⟩

/-- Cross-multiplied form of the floating trigger-ratio comparison. -/
lemma ratioGe_iff (count n num den : Nat) (hden : 0 < den) :
    ratioGe count n num den = true ↔
      ((num : ℚ) / (den : ℚ) ≤ (count : ℚ) / ((max 1 n : Nat) : ℚ)) := by
  unfold ratioGe
  have h1 : (0 : ℚ) < (den : ℚ) := by exact_mod_cast hden
  have h2 : (0 : ℚ) < ((max 1 n : Nat) : ℚ) := by
    exact_mod_cast Nat.lt_of_lt_of_le Nat.zero_lt_one (Nat.le_max_left 1 n)
  rw [decide_eq_true_eq, div_le_div_iff₀ h1 h2]
  rw [show (num : ℚ) * ((max 1 n : Nat) : ℚ) = ((num * max 1 n : Nat) : ℚ) by
        push_cast; ring,
      show (count : ℚ) * (den : ℚ) = ((den * count : Nat) : ℚ) by
        push_cast; ring]
  exact ⟨fun hq => by exact_mod_cast hq, fun hn => by exact_mod_cast hn⟩

/-- One trigger gate in terms of the claim's condition. -/
lemma triggerGate_iff (c : CaseInfo) (scores : List Int) (n : Nat) (t : Int)
    (num den : Nat) (hden : 0 < den) :
    (!(missing_case_keys c).isEmpty ||
        ratioGe (low_signal_count scores t) n num den) = true ↔
      claimC3_condition c scores n t ((num : ℚ) / (den : ℚ)) := by
  unfold claimC3_condition
  rw [Bool.or_eq_true, ratioGe_iff _ _ _ _ hden]
  simp [List.isEmpty_iff, ge_iff_le]

/-- C3 (amended): round 3 triggers iff its missing-field / low-signal-ratio
condition holds at the end of round 2; rounds 4 and 5 trigger iff the
previous round triggered AND their own condition holds (the cascade conjunct
is what the original claim omits); rounds 1 and 2 are unconditional in the
source. -/
theorem c3_trigger_characterization (fast : Bool) (case2 case3 case4 : CaseInfo)
    (scores2 scores3 scores4 : List Int) (nfiles : Nat) :
    (trigger_r3 fast case2 scores2 nfiles = true ↔
      claimC3_condition case2 scores2 nfiles 2 (if fast then 11/20 else 9/20)) ∧
    (trigger_r4 fast case2 scores2 case3 scores3 nfiles = true ↔
      (trigger_r3 fast case2 scores2 nfiles = true ∧
        claimC3_condition case3 scores3 nfiles 3 (if fast then 2/5 else 3/10))) ∧
    (trigger_r5 fast case2 scores2 case3 scores3 case4 scores4 nfiles = true ↔
      (trigger_r4 fast case2 scores2 case3 scores3 nfiles = true ∧
        claimC3_condition case4 scores4 nfiles 4 (if fast then 3/10 else 11/50))) := by
  refine ⟨?_, ?_, ?_⟩
  · unfold trigger_r3
    cases fast
    · rw [if_neg (by simp), if_neg (by simp)]
      rw [triggerGate_iff case2 scores2 nfiles 2 45 100 (by norm_num)]
      norm_num
    · rw [if_pos rfl, if_pos rfl]
      rw [triggerGate_iff case2 scores2 nfiles 2 55 100 (by norm_num)]
      norm_num
  · unfold trigger_r4
    rw [Bool.and_eq_true]
    refine and_congr_right fun _ => ?_
    cases fast
    · rw [if_neg (by simp), if_neg (by simp)]
      rw [triggerGate_iff case3 scores3 nfiles 3 30 100 (by norm_num)]
      norm_num
    · rw [if_pos rfl, if_pos rfl]
      rw [triggerGate_iff case3 scores3 nfiles 3 40 100 (by norm_num)]
      norm_num
  · unfold trigger_r5
    rw [Bool.and_eq_true]
    refine and_congr_right fun _ => ?_
    cases fast
    · rw [if_neg (by simp), if_neg (by simp)]
      rw [triggerGate_iff case4 scores4 nfiles 4 22 100 (by norm_num)]
      norm_num
    · rw [if_pos rfl, if_pos rfl]
      rw [triggerGate_iff case4 scores4 nfiles 4 30 100 (by norm_num)]
      norm_num

/-- C3 counterexample: with all case fields already filled and one document
of signal score 2 in fast mode, round 3 does not trigger (low-ratio 0 at
threshold 2), yet round 4's own condition holds (low-ratio 1 at threshold 3
reaches 0.40) — the code still skips round 4 because of the cascade, so the
claimed biconditional fails. -/
theorem c3_counterexample :
    ¬ (trigger_r4 true fullCaseInfo [2] fullCaseInfo [2] 1 = true ↔
        claimC3_condition fullCaseInfo [2] 1 3 (2/5)) := by
  intro hiff
  have h2 : claimC3_condition fullCaseInfo [2] 1 3 (2/5) := by
    unfold claimC3_condition
    right
    have hc : low_signal_count [2] 3 = 1 := rfl
    have hm : (max 1 1 : Nat) = 1 := rfl
    rw [hc, hm]
    norm_num
  have h1 : trigger_r4 true fullCaseInfo [2] fullCaseInfo [2] 1 = true :=
    hiff.mpr h2
  have h0 : trigger_r4 true fullCaseInfo [2] fullCaseInfo [2] 1 = false := by
    decide
  exact absurd (h1.symm.trans h0) (by decide)

/-- C9: with an unresolved defined period the engine still produces a
complete diagnostics record: G1a is set, the Time dimension score is 0, and
the derived risk level is the hard-fail tier. -/
theorem c9_unresolved_period_degrades (p : Profile) (rows : List Row)
    (ps pe : Option Int) (h : ps = none ∨ pe = none) :
    (build_defense_diagnostics p rows ps pe).gate_flags.g1a = true ∧
    (build_defense_diagnostics p rows ps pe).dim_scores.time = 0 ∧
    risk_level_from_case p (build_defense_diagnostics p rows ps pe) =
      p.hard_fail_level := by
  have hpo : (ps.isSome && pe.isSome) = false := by
    rcases h with h | h <;> subst h <;> simp
  refine ⟨?_, ?_, ?_⟩
  · simp [build_defense_diagnostics, buildGates, hpo]
  · simp [build_defense_diagnostics, buildDimScores, hpo, clampQ, round1]
  · simp [risk_level_from_case, build_defense_diagnostics, buildGates, hpo]

/-- C9 witness: both endpoints missing, empty evidence set, default
profile. -/
theorem c9_unresolved_period_degrades_witness :
    ((none : Option Int) = none ∨ (none : Option Int) = none) ∧
    ((build_defense_diagnostics defaultProfile [] none none).gate_flags.g1a = true ∧
     (build_defense_diagnostics defaultProfile [] none none).dim_scores.time = 0 ∧
     risk_level_from_case defaultProfile
         (build_defense_diagnostics defaultProfile [] none none) =
       defaultProfile.hard_fail_level) :=
  ⟨Or.inl rfl, c9_unresolved_period_degrades defaultProfile [] none none (Or.inl rfl)⟩

/-- C8 (amended): without an explicit override, `mark_presence` is VALID iff
the mark-shown flag normalizes to Y and the mark-name confidence cell is
empty, HIGH, MEDIUM or N/A — i.e. the code also accepts empty and N/A
confidence, not only HIGH/MEDIUM as claimed. -/
theorem c8_mark_presence_validity (r : Row)
    (h : ¬ (su r.mark_validity = "VALID" ∨ su r.mark_validity = "INVALID" ∨
            su r.mark_validity = "N/A")) :
    field_validity r "mark_presence" = "VALID" ↔
      (normalize_yesno r.mark_shown = "Y" ∧
        (su r.mark_name_confidence = "" ∨ su r.mark_name_confidence = "HIGH" ∨
         su r.mark_name_confidence = "MEDIUM" ∨
         su r.mark_name_confidence = "N/A")) := by
  unfold field_validity validityOverride
  split_ifs with h1 h2 h3 h4 h5
  all_goals simp_all
  all_goals tauto

/-- C8 witness: mark shown with an empty confidence cell is VALID. -/
theorem c8_mark_presence_validity_witness :
    (¬ (su rowMarkY.mark_validity = "VALID" ∨
        su rowMarkY.mark_validity = "INVALID" ∨
        su rowMarkY.mark_validity = "N/A")) ∧
    (field_validity rowMarkY "mark_presence" = "VALID" ↔
      (normalize_yesno rowMarkY.mark_shown = "Y" ∧
        (su rowMarkY.mark_name_confidence = "" ∨
         su rowMarkY.mark_name_confidence = "HIGH" ∨
         su rowMarkY.mark_name_confidence = "MEDIUM" ∨
         su rowMarkY.mark_name_confidence = "N/A"))) :=
  ⟨by decide, c8_mark_presence_validity rowMarkY (by decide)⟩

/-- C8 counterexample: mark shown `Y` with an empty confidence cell — the
code returns VALID although the confidence is not HIGH or MEDIUM, refuting
the claimed biconditional. -/
theorem c8_counterexample :
    ¬ (field_validity rowMarkY "mark_presence" = "VALID" ↔
        (normalize_yesno rowMarkY.mark_shown = "Y" ∧
          (su rowMarkY.mark_name_confidence = "HIGH" ∨
           su rowMarkY.mark_name_confidence = "MEDIUM"))) := by
  decide

/-- Zero count over a filtered list, pointwise. -/
lemma countP_filter_eq_zero {α : Type} (p q : α → Bool) (l : List α) :
    ((l.filter p).countP q = 0) ↔ ∀ a ∈ l, (p a && q a) = false := by
  rw [List.countP_eq_zero]
  constructor
  · intro h a ha
    by_cases hp : p a = true
    · have hq := h a (List.mem_filter.mpr ⟨ha, hp⟩)
      simp [hp]
      simpa using hq
    · simp [Bool.not_eq_true] at hp
      simp [hp]
  · intro h a ha
    obtain ⟨ha', hp⟩ := List.mem_filter.mp ha
    have := h a ha'
    simp [hp] at this
    simp [this]

/-- Positive count over a filtered list, pointwise. -/
lemma countP_filter_pos {α : Type} (p q : α → Bool) (l : List α) :
    (0 < (l.filter p).countP q) ↔ ∃ a ∈ l, (p a && q a) = true := by
  rw [List.countP_pos_iff]
  constructor
  · rintro ⟨a, ha, hq⟩
    obtain ⟨ha', hp⟩ := List.mem_filter.mp ha
    exact ⟨a, ha', by simp [hp, hq]⟩
  · rintro ⟨a, ha, hpq⟩
    simp [Bool.and_eq_true] at hpq
    exact ⟨a, List.mem_filter.mpr ⟨ha, hpq.1⟩, hpq.2⟩

/-- An in-period row has both anchor endpoints present. -/
lemma rowInPeriod_anchors (ps pe : Option Int) (r : Row)
    (h : rowInPeriod ps pe r = true) :
    (infer_time_anchor_row r).anchor_start.isSome = true ∧
    (infer_time_anchor_row r).anchor_end.isSome = true := by
  unfold rowInPeriod at h
  simp [Bool.and_eq_true] at h
  tauto

/-- A non-in-period flag is literally false. -/
lemma rowInPeriod_false_of_not (ps pe : Option Int) (r : Row)
    (h : ¬ rowInPeriod ps pe r = true) : rowInPeriod ps pe r = false := by
  revert h
  cases rowInPeriod ps pe r <;> simp

/-- The code's high/medium in-period counting condition agrees with the
amended-claim predicate. -/
lemma c1_pointwise_hm (ps pe : Option Int) (r : Row) :
    (rowKept r && (time_anchor_allowed_row r && rowDateValid r &&
      ((infer_time_anchor_row r).anchor_start.isSome &&
       (infer_time_anchor_row r).anchor_end.isSome) &&
      rowInPeriod ps pe r &&
      ((infer_time_anchor_row r).confidence = "HIGH" ||
       (infer_time_anchor_row r).confidence = "MEDIUM"))) =
    c1HighMedCovered ps pe r := by
  unfold c1HighMedCovered
  by_cases hip : rowInPeriod ps pe r = true
  · obtain ⟨h1, h2⟩ := rowInPeriod_anchors ps pe r hip
    simp [h1, h2, hip, Bool.and_assoc]
  · simp [rowInPeriod_false_of_not ps pe r hip]

/-- The code's low in-period counting condition agrees with the
amended-claim predicate. -/
lemma c1_pointwise_low (ps pe : Option Int) (r : Row) :
    (rowKept r && (time_anchor_allowed_row r && rowDateValid r &&
      ((infer_time_anchor_row r).anchor_start.isSome &&
       (infer_time_anchor_row r).anchor_end.isSome) &&
      rowInPeriod ps pe r &&
      !((infer_time_anchor_row r).confidence = "HIGH" ||
        (infer_time_anchor_row r).confidence = "MEDIUM"))) =
    c1LowCovered ps pe r := by
  unfold c1LowCovered
  by_cases hip : rowInPeriod ps pe r = true
  · obtain ⟨h1, h2⟩ := rowInPeriod_anchors ps pe r hip
    simp [h1, h2, hip, Bool.and_assoc]
  · simp [rowInPeriod_false_of_not ps pe r hip]

/-- The code's reference-lane counting condition agrees with the
amended-claim predicate. -/
lemma c1_pointwise_ref (ps pe : Option Int) (r : Row) :
    (rowKept r && (!(time_anchor_allowed_row r && rowDateValid r) &&
      rowInPeriod ps pe r)) =
    c1ReferenceInPeriod ps pe r := by
  unfold c1ReferenceInPeriod
  rw [Bool.and_assoc]

/-- C1 (amended): with a resolved defined period, G1b is true iff no counted
document has in-scope valid-date in-period coverage at HIGH/MEDIUM
confidence, and additionally either no counted document has such coverage at
any confidence (the low bucket is empty too) or some in-period document is
excluded from scored coverage (reference lane) — so low-confidence in-period
coverage does not block G1b when reference-lane coverage exists. -/
theorem c1_g1b_characterization (p : Profile) (rows : List Row) (a b : Int) :
    ((build_defense_diagnostics p rows (some a) (some b)).gate_flags.g1b = true) ↔
      ((∀ r ∈ rows, c1HighMedCovered (some a) (some b) r = false) ∧
       ((∀ r ∈ rows, c1LowCovered (some a) (some b) r = false) ∨
        (∃ r ∈ rows, c1ReferenceInPeriod (some a) (some b) r = true))) := by
  have hg : (build_defense_diagnostics p rows (some a) (some b)).gate_flags.g1b =
      ((((some a : Option Int)).isSome && ((some b : Option Int)).isSome) &&
        decide ((buildSummary rows (some a) (some b)).in_period_highmed = 0) &&
        (decide ((buildSummary rows (some a) (some b)).in_period_low = 0) ||
         decide (0 < (buildSummary rows (some a) (some b)).in_period_reference))) :=
    rfl
  have hHM : (buildSummary rows (some a) (some b)).in_period_highmed =
      (rows.filter rowKept).countP (fun r =>
        time_anchor_allowed_row r && rowDateValid r &&
        ((infer_time_anchor_row r).anchor_start.isSome &&
         (infer_time_anchor_row r).anchor_end.isSome) &&
        rowInPeriod (some a) (some b) r &&
        ((infer_time_anchor_row r).confidence = "HIGH" ||
         (infer_time_anchor_row r).confidence = "MEDIUM")) := rfl
  have hLOW : (buildSummary rows (some a) (some b)).in_period_low =
      (rows.filter rowKept).countP (fun r =>
        time_anchor_allowed_row r && rowDateValid r &&
        ((infer_time_anchor_row r).anchor_start.isSome &&
         (infer_time_anchor_row r).anchor_end.isSome) &&
        rowInPeriod (some a) (some b) r &&
        !((infer_time_anchor_row r).confidence = "HIGH" ||
          (infer_time_anchor_row r).confidence = "MEDIUM")) := rfl
  have hREF : (buildSummary rows (some a) (some b)).in_period_reference =
      (rows.filter rowKept).countP (fun r =>
        !(time_anchor_allowed_row r && rowDateValid r) &&
        rowInPeriod (some a) (some b) r) := rfl
  rw [hg, hHM, hLOW, hREF]
  simp only [Option.isSome_some, Bool.and_true, Bool.true_and, Bool.and_eq_true,
    Bool.or_eq_true, decide_eq_true_eq]
  rw [countP_filter_eq_zero, countP_filter_eq_zero, countP_filter_pos]
  refine and_congr ?_ (or_congr ?_ ?_)
  · exact forall₂_congr fun r _ => by rw [c1_pointwise_hm]
  · exact forall₂_congr fun r _ => by rw [c1_pointwise_low]
  · exact exists_congr fun r => and_congr_right fun _ => by rw [c1_pointwise_ref]

/-- C1 counterexample: one coverage-allowed row with an explicit in-period
range and a LOW `Date Confidence` cell — its date validity is INVALID, so it
lands in the reference bucket and the code sets G1b although an in-scope
document does have a LOW-confidence in-period anchor, refuting the claimed
biconditional. -/
theorem c1_counterexample :
    ¬ (((build_defense_diagnostics defaultProfile [rowLowConf]
          (some 0) (some 100)).gate_flags.g1b = true) ↔
        ([rowLowConf].countP (claimC1_inScopeHML (some 0) (some 100)) = 0)) := by
  decide

/-- Every row in the ranked top-K carries an `in_period` flag that agrees
with its date's position relative to the resolved period. -/
lemma c4_top_invariant (base review order logistics : List Int) (a b : Int)
    (k : Nat) (hint : Int → Option CtxHint) (excl : Int → Bool)
    (kind : String) (r : CandRow)
    (hr : r ∈ (sortRows ((firstOccurDedup []
        (base ++ review ++ order ++ logistics)).map
        (mkCandRow base review order logistics (some a) (some b) hint excl
          kind))).take k) :
    r.in_period = decide (a ≤ r.date ∧ r.date ≤ b) := by
  have hr1 := List.mem_of_mem_take hr
  rw [mem_sortRows] at hr1
  obtain ⟨d, _, rfl⟩ := List.mem_map.mp hr1
  simp [mkCandRow, Bool.decide_and]

/-- C4: with a resolved defined period, the resolver sets `conflict_flag`
iff the ranked top-K candidate list contains both an in-period and an
out-of-period member, and when it does, the selected date set is exactly the
(sorted, deduplicated) in-period subset of the top-K. -/
theorem c4_conflict_flag_characterization (base review order logistics : List Int)
    (a b : Int) (top_k : Nat) (hint : Int → Option CtxHint)
    (excl : Int → Bool) (kind : String) :
    ((build_time_anchor_candidates base review order logistics
        (some a) (some b) top_k hint excl kind).conflict_flag = true ↔
      ((∃ r ∈ (build_time_anchor_candidates base review order logistics
          (some a) (some b) top_k hint excl kind).candidates,
          a ≤ r.date ∧ r.date ≤ b) ∧
       (∃ r ∈ (build_time_anchor_candidates base review order logistics
          (some a) (some b) top_k hint excl kind).candidates,
          ¬ (a ≤ r.date ∧ r.date ≤ b)))) ∧
    ((build_time_anchor_candidates base review order logistics
        (some a) (some b) top_k hint excl kind).conflict_flag = true →
      (build_time_anchor_candidates base review order logistics
          (some a) (some b) top_k hint excl kind).selected_dates =
        sortedDedupInt (((build_time_anchor_candidates base review order
            logistics (some a) (some b) top_k hint excl kind).candidates.filter
          (fun r => decide (a ≤ r.date ∧ r.date ≤ b))).map
            (fun r => r.date))) := by
  simp only [build_time_anchor_candidates]
  by_cases hemp : (firstOccurDedup []
      (base ++ review ++ order ++ logistics)).isEmpty
  · rw [if_pos hemp]
    simp
  · rw [if_neg hemp]
    have hinv := c4_top_invariant base review order logistics a b
      (max 1 top_k) hint excl kind
    constructor
    · rw [Bool.and_eq_true, List.any_eq_true, List.any_eq_true]
      refine and_congr ?_ ?_
      · refine exists_congr fun r => and_congr_right fun hr => ?_
        rw [hinv r hr, decide_eq_true_eq]
      · refine exists_congr fun r => and_congr_right fun hr => ?_
        rw [Bool.not_eq_true', hinv r hr, decide_eq_false_iff_not]
    · intro hconf
      rw [Bool.and_eq_true, List.any_eq_true] at hconf
      obtain ⟨⟨r0, hr0, hr0p⟩, _⟩ := hconf
      have hfilter : (((sortRows ((firstOccurDedup []
          (base ++ review ++ order ++ logistics)).map
          (mkCandRow base review order logistics (some a) (some b) hint excl
            kind))).take (max 1 top_k)).filter (fun c => c.in_period)) ≠ [] := by
        intro hnil
        have : r0 ∈ ((sortRows ((firstOccurDedup []
            (base ++ review ++ order ++ logistics)).map
            (mkCandRow base review order logistics (some a) (some b) hint excl
              kind))).take (max 1 top_k)).filter (fun c => c.in_period) :=
          List.mem_filter.mpr ⟨hr0, hr0p⟩
        rw [hnil] at this
        exact absurd this (List.not_mem_nil r0)
      have hne : ((((sortRows ((firstOccurDedup []
          (base ++ review ++ order ++ logistics)).map
          (mkCandRow base review order logistics (some a) (some b) hint excl
            kind))).take (max 1 top_k)).filter
            (fun c => c.in_period)).isEmpty) = false := by
        rw [List.isEmpty_eq_false]
        exact hfilter
      rw [hne]
      simp only [Bool.false_eq_true, if_false]
      congr 1
      congr 1
      exact List.filter_congr fun r hr => by rw [hinv r hr]

/-- C4 witness: one in-period date (0) and one out-of-period date (50)
against the period [0, 10] raise the conflict flag, and the selection
narrows to the in-period subset. -/
theorem c4_conflict_flag_characterization_witness :
    (build_time_anchor_candidates [0, 50] [] [] [] (some 0) (some 10) 5
        (fun _ => none) (fun _ => false) "").conflict_flag = true ∧
    (build_time_anchor_candidates [0, 50] [] [] [] (some 0) (some 10) 5
        (fun _ => none) (fun _ => false) "").selected_dates =
      sortedDedupInt (((build_time_anchor_candidates [0, 50] [] [] []
          (some 0) (some 10) 5 (fun _ => none) (fun _ => false)
          "").candidates.filter
        (fun r => decide ((0 : Int) ≤ r.date ∧ r.date ≤ 10))).map
          (fun r => r.date)) :=
  ⟨by decide,
   (c4_conflict_flag_characterization [0, 50] [] [] [] 0 10 5
      (fun _ => none) (fun _ => false) "").2 (by decide)⟩
